import Mathlib

/-!
Shallow embedding of the pmemkv Python binding (src/pmemkv/kvengine.cc).

The binding wraps the native libpmemkv C API.  The native engine itself is an
external collaborator: its functions are modelled as parameters (a function
argument standing for the C entry point) or, for the synchronous iteration
contract of pmemkv_get_all, as an explicit loop that invokes the embedded
callback bridge once per entry and stops when the bridge returns non-zero.
Machine integers: status codes are C ints, modelled as Int; sizes are size_t,
modelled as Nat, with truncation made explicit where the code truncates.
-/

namespace PmemkvNI

/-! Status codes from libpmemkv.h (the native engine's closed enumeration). -/

def PMEMKV_STATUS_OK : Int := 0
def PMEMKV_STATUS_UNKNOWN_ERROR : Int := 1
def PMEMKV_STATUS_NOT_FOUND : Int := 2
def PMEMKV_STATUS_NOT_SUPPORTED : Int := 3
def PMEMKV_STATUS_INVALID_ARGUMENT : Int := 4
def PMEMKV_STATUS_CONFIG_PARSING_ERROR : Int := 5
def PMEMKV_STATUS_CONFIG_TYPE_ERROR : Int := 6
def PMEMKV_STATUS_STOPPED_BY_CB : Int := 7
def PMEMKV_STATUS_OUT_OF_MEMORY : Int := 8
def PMEMKV_STATUS_WRONG_ENGINE_NAME : Int := 9
def PMEMKV_STATUS_TRANSACTION_SCOPE_ERROR : Int := 10

/-- Python exception objects as the binding can observe them:
the two pre-existing interpreter exceptions used in the dispatcher table
(PyExc_KeyError, PyExc_MemoryError), the root engine exception created by
PyErr_NewException("pmemkv_NI.PmemkvException", NULL, NULL), and
dynamically registered kinds created by
PyErr_NewExceptionWithDoc(name, doc, base, NULL). -/
inductive PyExcObj where
  | keyError
  | memoryError
  | pmemkvRoot
  | newExc (name : String) (doc : String) (base : PyExcObj)
deriving DecidableEq

/-- The Exception struct of kvengine.cc: a (possibly NULL) exception object
pointer plus (possibly NULL) name strings and a docstring. -/
structure ExceptionEntry where
  exception : Option PyExcObj
  object_name : Option String
  exception_name : Option String
  docstring : Option String
deriving DecidableEq

/-- The static ExceptionDispatcher table of kvengine.cc (lines 55-88), an
unordered_map from int status code to Exception, modelled as an association
list.  Entries for NOT_FOUND and OUT_OF_MEMORY carry a pre-existing
interpreter exception; all others start with a NULL exception pointer. -/
def ExceptionDispatcher : List (Int × ExceptionEntry) :=
  [(PMEMKV_STATUS_UNKNOWN_ERROR,
    ⟨none, some "UnknownError", some "pmemkv_NI.UnknownError",
     some "Something unexpected happened"⟩),
   (PMEMKV_STATUS_NOT_FOUND,
    ⟨some .keyError, none, none,
     some "Database entry or config item not found"⟩),
   (PMEMKV_STATUS_NOT_SUPPORTED,
    ⟨none, some "NotSupported", some "pmemkv_NI.NotSupported",
     some "Function is not implemented by current engine"⟩),
   (PMEMKV_STATUS_INVALID_ARGUMENT,
    ⟨none, some "InvalidArgument", some "pmemkv_NI.InvalidArgument",
     some "Argument to function has wrong value"⟩),
   (PMEMKV_STATUS_CONFIG_PARSING_ERROR,
    ⟨none, some "ConfigParsingError", some "pmemkv_NI.ConfigParsingError",
     some "Processing config failed"⟩),
   (PMEMKV_STATUS_CONFIG_TYPE_ERROR,
    ⟨none, some "ConfigTypeError", some "pmemkv_NI.ConfigTypeError",
     some "Config item has different type than expected"⟩),
   (PMEMKV_STATUS_STOPPED_BY_CB,
    ⟨none, some "StoppedByCallback", some "pmemkv_NI.StoppedByCallback",
     some "Callback function aborted in an unexpected way"⟩),
   (PMEMKV_STATUS_OUT_OF_MEMORY,
    ⟨some .memoryError, none, none,
     some "Operation failed because there is not enough memory (or space on the device)"⟩),
   (PMEMKV_STATUS_WRONG_ENGINE_NAME,
    ⟨none, some "WrongEngineName", some "pmemkv_NI.WrongEngineName",
     some "Engine name does not match any available engine"⟩),
   (PMEMKV_STATUS_TRANSACTION_SCOPE_ERROR,
    ⟨none, some "TransactionScopeError", some "pmemkv_NI.TransactionScopeError",
     some "An error with the scope of the libpmemobj transaction. This exception is defined for compatibility with pmemkv API and probably will never occur"⟩)]

/-- The value-initialized Exception an unordered_map produces for an absent
key: all pointer members NULL. -/
def defaultExceptionEntry : ExceptionEntry := ⟨none, none, none, none⟩

/-- The behaviour of ExceptionDispatcher[code] (std::unordered_map
operator[]): if the code is present, its entry is returned and the map is
unchanged; if it is absent, a value-initialized entry is silently inserted
and returned. -/
def mapIndex (t : List (Int × ExceptionEntry)) (code : Int) :
    List (Int × ExceptionEntry) × ExceptionEntry :=
  match t.lookup code with
  | some e => (t, e)
  | none => (t ++ [(code, defaultExceptionEntry)], defaultExceptionEntry)

/-- The per-entry body of the registration loop in PyInit__pmemkv
(lines 670-680): entries whose exception pointer is NULL get a freshly
created exception kind, named by exception_name, documented by docstring,
with PmemkvException as its base; entries with a pre-existing exception are
left untouched. -/
def initException (e : ExceptionEntry) : ExceptionEntry :=
  match e.exception with
  | some _ => e
  | none =>
      { e with
        exception := some (.newExc ((e.exception_name).getD "")
          ((e.docstring).getD "") .pmemkvRoot) }

/-- The registration loop of PyInit__pmemkv applied to the whole table. -/
def initDispatcher (t : List (Int × ExceptionEntry)) :
    List (Int × ExceptionEntry) :=
  t.map (fun p => (p.1, initException p.2))

/-- The exception object that PyErr_SetString receives at a call site
reading ExceptionDispatcher[code].exception after module initialization. -/
def dispatchedExc (code : Int) : Option PyExcObj :=
  (mapIndex (initDispatcher ExceptionDispatcher) code).2.exception

/-- Stands for the opaque message returned by pmemkv_errormsg(). -/
def pmemkv_errormsgStr : String := "pmemkv_errormsg"

/-! The PmemkvValueBufferObject view and the callback bridges. -/

/-- The two member fields of PmemkvValueBufferObject that back the buffer
protocol: the data pointer (none models NULL) and the length.  A pointer is
modelled as an abstract address. -/
structure PmemkvValueBufferObject where
  value : Option Nat
  length : Nat
deriving DecidableEq

/-- Observable effects of one run of value_callback (kvengine.cc lines
235-258).  viewAtHostCall is the field state of the created view when the
host callable is invoked; viewAtReturn is its field state at the moment the
bridge returns, as seen through any reference the host callable retained
(none when the object was never created or was destroyed before the call).
errOnReturn is the PyErr state when the bridge returns. -/
structure ValueCallbackRun where
  viewAtHostCall : Option PmemkvValueBufferObject
  viewAtReturn : Option PmemkvValueBufferObject
  hostCalled : Bool
  errOnReturn : Bool
deriving DecidableEq

/-- value_callback (lines 235-258).  allocEntryOk and allocArgsOk model the
success of PyObject_New and PyTuple_New; hostRaises models the host callable
raising; errIn is the PyErr state on entry.  On the success path the entry
fields are set to the native (pointer, length) before the call and are never
written again before the bridge returns; PyTuple_SetItem on a fresh 1-tuple
at index 0 succeeds. -/
def value_callback (ptr len : Nat)
    (allocEntryOk allocArgsOk hostRaises errIn : Bool) : ValueCallbackRun :=
  if allocEntryOk = false then
    { viewAtHostCall := none, viewAtReturn := none,
      hostCalled := false, errOnReturn := true }
  else
    if allocArgsOk = false then
      { viewAtHostCall := none, viewAtReturn := none,
        hostCalled := false, errOnReturn := true }
    else
      { viewAtHostCall := some ⟨some ptr, len⟩,
        viewAtReturn := some ⟨some ptr, len⟩,
        hostCalled := true, errOnReturn := errIn || hostRaises }

/-- key_callback (lines 260-267): forwards the key range to value_callback,
then returns -1 if PyErr_Occurred() is non-NULL and 0 otherwise. -/
def key_callback (kptr klen : Nat)
    (allocEntryOk allocArgsOk hostRaises errIn : Bool) :
    ValueCallbackRun × Int :=
  let run := value_callback kptr klen allocEntryOk allocArgsOk hostRaises errIn
  (run, if run.errOnReturn then -1 else 0)

/-- Observable effects of one run of key_value_callback (lines 269-309):
field states of the key view and the value view at host-call time and at
return time, whether the host callable was invoked, the PyErr state on
return, and the int returned to the native engine. -/
structure KeyValueCallbackRun where
  keyViewAtHostCall : Option PmemkvValueBufferObject
  valueViewAtHostCall : Option PmemkvValueBufferObject
  keyViewAtReturn : Option PmemkvValueBufferObject
  valueViewAtReturn : Option PmemkvValueBufferObject
  hostCalled : Bool
  errOnReturn : Bool
  retval : Int
deriving DecidableEq

/-- key_value_callback (lines 269-309).  allocBuffersOk models the two
PyObject_New calls succeeding; allocArgsOk models PyTuple_New succeeding (in
its failure branch the code returns -1 without setting an error).  On the
success path both views are filled, the host callable is invoked with
(key view, value view), then both views have value set to NULL and length
set to 0 before the bridge returns; the return value is -1 when
PyErr_Occurred() is non-NULL and 0 otherwise. -/
def key_value_callback (kptr klen vptr vlen : Nat)
    (allocBuffersOk allocArgsOk hostRaises errIn : Bool) :
    KeyValueCallbackRun :=
  if allocBuffersOk = false then
    { keyViewAtHostCall := none, valueViewAtHostCall := none,
      keyViewAtReturn := none, valueViewAtReturn := none,
      hostCalled := false, errOnReturn := true, retval := -1 }
  else
    if allocArgsOk = false then
      { keyViewAtHostCall := none, valueViewAtHostCall := none,
        keyViewAtReturn := none, valueViewAtReturn := none,
        hostCalled := false, errOnReturn := errIn, retval := -1 }
    else
      { keyViewAtHostCall := some ⟨some kptr, klen⟩,
        valueViewAtHostCall := some ⟨some vptr, vlen⟩,
        keyViewAtReturn := some ⟨none, 0⟩,
        valueViewAtReturn := some ⟨none, 0⟩,
        hostCalled := true,
        errOnReturn := errIn || hostRaises,
        retval := if errIn || hostRaises then -1 else 0 }

/-- The native engine's synchronous iteration contract for pmemkv_get_all
with key_value_callback (external collaborator, spec sections 5-6): the
engine invokes the callback once per entry, in order, and stops iterating as
soon as a callback returns non-zero, in which case the call returns
PMEMKV_STATUS_STOPPED_BY_CB.  Each entry carries its byte ranges and a flag
saying whether the host callable raises on it; allocations succeed.  Returns
(number of callback invocations, PyErr state after the call, status). -/
def pmemkv_get_all_run :
    List ((Nat × Nat × Nat × Nat) × Bool) → Bool → Nat × Bool × Int
  | [], err => (0, err, PMEMKV_STATUS_OK)
  | (e, raises) :: rest, err =>
      let run := key_value_callback e.1 e.2.1 e.2.2.1 e.2.2.2 true true raises err
      if run.retval = 0 then
        ((pmemkv_get_all_run rest run.errOnReturn).1 + 1,
         (pmemkv_get_all_run rest run.errOnReturn).2.1,
         (pmemkv_get_all_run rest run.errOnReturn).2.2)
      else
        (1, run.errOnReturn, PMEMKV_STATUS_STOPPED_BY_CB)

/-! The engine-handle wrapper operations. -/

/-- A pmemkv_db handle pointer; none models NULL (the Unopened or Closed
state). -/
abbrev Db := Option Nat

/-- Result of a wrapper entry point as the Python caller observes it:
a returned value, PyErr_SetString(e, msg) followed by returning NULL, or
returning NULL with a pre-existing error (raised inside a host callback)
left as the active exception. -/
inductive PyResult (α : Type) where
  | ok (a : α)
  | exc (e : Option PyExcObj) (msg : String)
  | errPass
deriving DecidableEq

/-- Observable effects of pmemkv_NI_Stop (lines 221-227): the handle field
afterwards, the handle passed to pmemkv_close when it was called, and
whether any error was raised (the function always ends in Py_RETURN_NONE). -/
structure StopRun where
  db : Db
  closedHandle : Option Nat
  raised : Bool
deriving DecidableEq

/-- pmemkv_NI_Stop (lines 221-227): pmemkv_close(self->db) is called only
when self->db is non-NULL; self->db is then set to NULL and None is
returned. -/
def pmemkv_NI_Stop (db : Db) : StopRun :=
  match db with
  | some h => { db := none, closedHandle := some h, raised := false }
  | none => { db := none, closedHandle := none, raised := false }

/-- pmemkv_NI_Put (lines 528-540): calls pmemkv_put on self->db with the key
and value buffers; a status other than OK raises the dispatched exception,
otherwise None is returned.  The native pmemkv_put is a parameter. -/
def pmemkv_NI_Put (db : Db) (key value : List Nat)
    (pmemkv_put : Db → List Nat → List Nat → Int) : PyResult Unit :=
  let result := pmemkv_put db key value
  if result ≠ PMEMKV_STATUS_OK then .exc (dispatchedExc result) pmemkv_errormsgStr
  else .ok ()

/-- The GetCallbackContext of pmemkv_NI_GetString: a status initialized to
NOT_FOUND and an accumulating value string. -/
structure GetCallbackContext where
  status : Int
  value : List Nat
deriving DecidableEq

/-- pmemkv_NI_GetString (lines 542-569).  The native pmemkv_get is a
parameter returning the list of byte ranges it passes to the C++ lambda
(zero or one for a get) together with its status; the lambda sets the
context status to OK and appends the bytes.  errIn is the PyErr state
observed after the native call (the lambda itself never touches PyErr).
After the call: a pending error returns NULL; a status other than OK raises
the dispatched exception; otherwise the value is materialized when the
context status is OK and None is returned when it is not. -/
def pmemkv_NI_GetString (db : Db) (key : List Nat)
    (pmemkv_get : Db → List Nat → List (List Nat) × Int) (errIn : Bool) :
    PyResult (Option (List Nat)) :=
  let invs := (pmemkv_get db key).1
  let result := (pmemkv_get db key).2
  let cxt := invs.foldl
    (fun c v => { status := PMEMKV_STATUS_OK, value := c.value ++ v })
    (⟨PMEMKV_STATUS_NOT_FOUND, []⟩ : GetCallbackContext)
  if errIn then .errPass
  else if result ≠ PMEMKV_STATUS_OK then
    .exc (dispatchedExc result) pmemkv_errormsgStr
  else if cxt.status = PMEMKV_STATUS_OK then .ok (some cxt.value)
  else .ok none

/-- pmemkv_NI_GetAll (lines 441-455), after the native pmemkv_get_all call
has returned: given the PyErr state at that point and the returned status,
a pending error (one raised inside the host callback) returns NULL with that
error still active; otherwise a status other than OK raises the dispatched
exception; otherwise None is returned. -/
def pmemkv_NI_GetAll (errAfterNative : Bool) (result : Int) : PyResult Unit :=
  if errAfterNative then .errPass
  else if result ≠ PMEMKV_STATUS_OK then
    .exc (dispatchedExc result) pmemkv_errormsgStr
  else .ok ()

/-- pmemkv_NI_Exists (lines 513-525): calls pmemkv_exists; a status other
than OK and other than NOT_FOUND raises the dispatched exception; otherwise
the boolean (status == OK) is returned. -/
def pmemkv_NI_Exists (db : Db) (key : List Nat)
    (pmemkv_exists : Db → List Nat → Int) : PyResult Bool :=
  let result := pmemkv_exists db key
  if result ≠ PMEMKV_STATUS_OK ∧ result ≠ PMEMKV_STATUS_NOT_FOUND then
    .exc (dispatchedExc result) pmemkv_errormsgStr
  else .ok (decide (result = PMEMKV_STATUS_OK))

/-- pmemkv_NI_Remove (lines 589-601): calls pmemkv_remove; a status other
than OK and other than NOT_FOUND raises the dispatched exception; otherwise
the boolean (status == OK) is returned. -/
def pmemkv_NI_Remove (db : Db) (key : List Nat)
    (pmemkv_remove : Db → List Nat → Int) : PyResult Bool :=
  let result := pmemkv_remove db key
  if result ≠ PMEMKV_STATUS_OK ∧ result ≠ PMEMKV_STATUS_NOT_FOUND then
    .exc (dispatchedExc result) pmemkv_errormsgStr
  else .ok (decide (result = PMEMKV_STATUS_OK))

/-- Py_BuildValue with format "i" reads its size_t argument as a C int:
the count is truncated to 32 bits and reinterpreted as a signed value. -/
def toCInt (n : Nat) : Int :=
  let m := n % 4294967296
  if m < 2147483648 then (m : Int) else (m : Int) - 4294967296

/-- pmemkv_NI_CountAll (lines 384-393): calls pmemkv_count_all (a parameter
returning the written size_t count and the status); a status other than OK
raises the dispatched exception; otherwise the count is returned through
Py_BuildValue("i", cnt). -/
def pmemkv_NI_CountAll (db : Db) (pmemkv_count_all : Db → Nat × Int) :
    PyResult Int :=
  let cnt := (pmemkv_count_all db).1
  let result := (pmemkv_count_all db).2
  if result ≠ PMEMKV_STATUS_OK then
    .exc (dispatchedExc result) pmemkv_errormsgStr
  else .ok (toCInt cnt)

/-- pmemkv_NI_CountAbove (lines 395-408), same shape as CountAll with a key
bound forwarded to the native call. -/
def pmemkv_NI_CountAbove (db : Db) (key : List Nat)
    (pmemkv_count_above : Db → List Nat → Nat × Int) : PyResult Int :=
  let cnt := (pmemkv_count_above db key).1
  let result := (pmemkv_count_above db key).2
  if result ≠ PMEMKV_STATUS_OK then
    .exc (dispatchedExc result) pmemkv_errormsgStr
  else .ok (toCInt cnt)

/-- pmemkv_NI_CountBelow (lines 410-423), same shape as CountAll with a key
bound forwarded to the native call. -/
def pmemkv_NI_CountBelow (db : Db) (key : List Nat)
    (pmemkv_count_below : Db → List Nat → Nat × Int) : PyResult Int :=
  let cnt := (pmemkv_count_below db key).1
  let result := (pmemkv_count_below db key).2
  if result ≠ PMEMKV_STATUS_OK then
    .exc (dispatchedExc result) pmemkv_errormsgStr
  else .ok (toCInt cnt)

/-- pmemkv_NI_CountBetween (lines 425-438), same shape as CountAll with two
key bounds forwarded to the native call. -/
def pmemkv_NI_CountBetween (db : Db) (key1 key2 : List Nat)
    (pmemkv_count_between : Db → List Nat → List Nat → Nat × Int) :
    PyResult Int :=
  let cnt := (pmemkv_count_between db key1 key2).1
  let result := (pmemkv_count_between db key1 key2).2
  if result ≠ PMEMKV_STATUS_OK then
    .exc (dispatchedExc result) pmemkv_errormsgStr
  else .ok (toCInt cnt)

/-- An entry maps to a dynamically registered kind parented under the root
engine exception. -/
def isDynamicUnderRoot (e : ExceptionEntry) : Bool :=
  match e.exception with
  | some (.newExc _ _ .pmemkvRoot) => true
  | _ => false

/-! Theorems about the claims. -/

/-- C1: evaluation of the code at the failing input.  value_callback, run
with allocations succeeding and the host callable neither raising nor
failing, invokes the host callable with a view holding the native
(pointer, length) but returns with those fields still holding the native
pointer and length: it never nulls them, so a retained view reads back the
stale range, not an empty one.  key_value_callback, by contrast, does null
both of its views' fields before returning. -/
theorem c1_value_callback_keeps_stale_view :
    (value_callback 5 3 true true false false).hostCalled = true
  ∧ (value_callback 5 3 true true false false).viewAtReturn = some ⟨some 5, 3⟩
  ∧ (value_callback 5 3 true true false false).viewAtReturn ≠ some ⟨none, 0⟩
  ∧ (key_value_callback 5 3 7 2 true true false false).keyViewAtReturn
      = some ⟨none, 0⟩
  ∧ (key_value_callback 5 3 7 2 true true false false).valueViewAtReturn
      = some ⟨none, 0⟩ := by
  decide

/-- C2 counterexample: when the native pmemkv_get reports NOT_FOUND (key
absent, callback never invoked), pmemkv_NI_GetString raises the dispatched
exception for NOT_FOUND — the interpreter's KeyError — instead of returning
None as the claim states. -/
theorem c2_not_found_raises_key_error :
    pmemkv_NI_GetString (some 1) [107]
        (fun _ _ => ([], PMEMKV_STATUS_NOT_FOUND)) false
      = .exc (some .keyError) pmemkv_errormsgStr
  ∧ pmemkv_NI_GetString (some 1) [107]
        (fun _ _ => ([], PMEMKV_STATUS_NOT_FOUND)) false
      ≠ .ok none := by
  decide

/-- C2 amended: get_string returns the stored value when the native status
is OK and the value callback was invoked; returns None when the status is OK
but the callback was never invoked; and raises the dispatched exception for
every status other than OK — including NOT_FOUND, which raises the host's
KeyError. -/
theorem c2_get_string_dispatch (db : Db) (key v : List Nat) (result : Int) :
    pmemkv_NI_GetString db key (fun _ _ => ([v], PMEMKV_STATUS_OK)) false
      = .ok (some v)
  ∧ pmemkv_NI_GetString db key (fun _ _ => ([], PMEMKV_STATUS_OK)) false
      = .ok none
  ∧ (result ≠ PMEMKV_STATUS_OK →
      pmemkv_NI_GetString db key (fun _ _ => ([], result)) false
        = .exc (dispatchedExc result) pmemkv_errormsgStr) := by
  refine ⟨?_, rfl, fun h => ?_⟩
  · simp [pmemkv_NI_GetString, PMEMKV_STATUS_OK, PMEMKV_STATUS_NOT_FOUND]
  · simp [pmemkv_NI_GetString, h]

/-- C2 witness for the amended theorem, at the NOT_FOUND status. -/
theorem c2_get_string_dispatch_witness :
    pmemkv_NI_GetString none [] (fun _ _ => ([], PMEMKV_STATUS_NOT_FOUND)) false
      = .exc (dispatchedExc PMEMKV_STATUS_NOT_FOUND) pmemkv_errormsgStr :=
  (c2_get_string_dispatch none [] [] PMEMKV_STATUS_NOT_FOUND).2.2 (by decide)

/-- C3: pmemkv_NI_GetAll returns NULL with the host callback's own failure
still active whenever an error is pending after the native call, for every
status the native call reports — in particular this takes precedence over
the exception that would otherwise be dispatched (shown for the
callback-aborted status in the second conjunct); the third conjunct shows a
full iteration in which the host callable raises on the first entry: the
wrapper outcome is the pending host failure, not the dispatched
StoppedByCallback exception. -/
theorem c3_host_failure_precedence (result : Int)
    (e : Nat × Nat × Nat × Nat) (rest : List ((Nat × Nat × Nat × Nat) × Bool)) :
    pmemkv_NI_GetAll true result = .errPass
  ∧ pmemkv_NI_GetAll false PMEMKV_STATUS_STOPPED_BY_CB
      = .exc (dispatchedExc PMEMKV_STATUS_STOPPED_BY_CB) pmemkv_errormsgStr
  ∧ pmemkv_NI_GetAll (pmemkv_get_all_run ((e, true) :: rest) false).2.1
      (pmemkv_get_all_run ((e, true) :: rest) false).2.2 = .errPass := by
  exact ⟨rfl, rfl, rfl⟩

/-- C4: the iteration bridges return the abort signal -1 to the native
engine exactly when the host callable raised (0 otherwise, allocations
succeeding and no pre-existing error), and in the modelled native iteration
a run whose host callable raises on the entry after a prefix of non-raising
entries invokes the callback once per prefix entry plus once for the failing
entry and then stops: nothing after the failing entry is invoked, and the
native call reports the stopped-by-callback status with the host failure
still recorded. -/
theorem c4_bridge_abort_halts_iteration (kptr klen vptr vlen : Nat)
    (hostRaises : Bool) (pre : List (Nat × Nat × Nat × Nat))
    (e : Nat × Nat × Nat × Nat) (post : List ((Nat × Nat × Nat × Nat) × Bool)) :
    ((key_callback kptr klen true true hostRaises false).2
       = if hostRaises then -1 else 0)
  ∧ ((key_value_callback kptr klen vptr vlen true true hostRaises false).retval
       = if hostRaises then -1 else 0)
  ∧ pmemkv_get_all_run (pre.map (fun x => (x, false)) ++ (e, true) :: post) false
       = (pre.length + 1, true, PMEMKV_STATUS_STOPPED_BY_CB) := by
  refine ⟨?_, ?_, ?_⟩
  · cases hostRaises <;> rfl
  · cases hostRaises <;> rfl
  · induction pre with
    | nil => rfl
    | cons x xs ih => simp [pmemkv_get_all_run, key_value_callback, ih]

/-- C5 counterexample: asked about the code 9999, which is outside its
table, the dispatcher does not fail: operator[] silently default-inserts a
value-initialized descriptor and returns it, so the caller receives a
descriptor whose exception object is NULL (which the call sites then hand
to PyErr_SetString). -/
theorem c5_unknown_code_not_fatal :
    (initDispatcher ExceptionDispatcher).lookup 9999 = none
  ∧ (mapIndex (initDispatcher ExceptionDispatcher) 9999).2
      = defaultExceptionEntry
  ∧ defaultExceptionEntry.exception = none
  ∧ (mapIndex (initDispatcher ExceptionDispatcher) 9999).1.lookup 9999
      = some defaultExceptionEntry := by
  decide

/-- C5 amended: for every status code absent from the dispatcher's table,
indexing the dispatcher silently inserts and returns the value-initialized
descriptor — whose exception object is NULL — rather than asserting or
failing fatally. -/
theorem c5_unknown_code_default_inserted (code : Int)
    (h : (initDispatcher ExceptionDispatcher).lookup code = none) :
    mapIndex (initDispatcher ExceptionDispatcher) code
      = (initDispatcher ExceptionDispatcher ++ [(code, defaultExceptionEntry)],
         defaultExceptionEntry)
  ∧ (mapIndex (initDispatcher ExceptionDispatcher) code).2.exception
      = none := by
  refine ⟨?_, ?_⟩ <;> simp [mapIndex, h, defaultExceptionEntry]

/-- C5 witness for the amended theorem, at the out-of-table code 12345. -/
theorem c5_unknown_code_default_inserted_witness :
    (mapIndex (initDispatcher ExceptionDispatcher) 12345).2.exception
      = none :=
  (c5_unknown_code_default_inserted 12345 (by decide)).2

/-- C6: after the registration loop of module initialization, NOT_FOUND maps
to the interpreter's KeyError and OUT_OF_MEMORY to its MemoryError; every
other status in the table maps to a dynamically registered exception kind
whose base is the root engine exception; before initialization none of those
dynamic exception objects exists yet (their pointers are NULL); and running
the registration loop again creates nothing new (each kind is created
exactly once, during initialization). -/
theorem c6_dispatcher_mapping :
    ((initDispatcher ExceptionDispatcher).lookup PMEMKV_STATUS_NOT_FOUND).map
        (fun e => e.exception) = some (some .keyError)
  ∧ ((initDispatcher ExceptionDispatcher).lookup PMEMKV_STATUS_OUT_OF_MEMORY).map
        (fun e => e.exception) = some (some .memoryError)
  ∧ (initDispatcher ExceptionDispatcher).all
      (fun p => decide (p.1 = PMEMKV_STATUS_NOT_FOUND)
        || decide (p.1 = PMEMKV_STATUS_OUT_OF_MEMORY)
        || isDynamicUnderRoot p.2) = true
  ∧ ExceptionDispatcher.all
      (fun p => decide (p.1 = PMEMKV_STATUS_NOT_FOUND)
        || decide (p.1 = PMEMKV_STATUS_OUT_OF_MEMORY)
        || decide (p.2.exception = none)) = true
  ∧ initDispatcher (initDispatcher ExceptionDispatcher)
      = initDispatcher ExceptionDispatcher := by
  decide

/-- C7: exists and remove both return true when the native status is OK and
false, without raising, when it is NOT_FOUND; every other status raises the
dispatched exception. -/
theorem c7_exists_remove_booleans (db : Db) (key : List Nat) (result : Int) :
    pmemkv_NI_Exists db key (fun _ _ => PMEMKV_STATUS_OK) = .ok true
  ∧ pmemkv_NI_Exists db key (fun _ _ => PMEMKV_STATUS_NOT_FOUND) = .ok false
  ∧ (result ≠ PMEMKV_STATUS_OK → result ≠ PMEMKV_STATUS_NOT_FOUND →
      pmemkv_NI_Exists db key (fun _ _ => result)
        = .exc (dispatchedExc result) pmemkv_errormsgStr)
  ∧ pmemkv_NI_Remove db key (fun _ _ => PMEMKV_STATUS_OK) = .ok true
  ∧ pmemkv_NI_Remove db key (fun _ _ => PMEMKV_STATUS_NOT_FOUND) = .ok false
  ∧ (result ≠ PMEMKV_STATUS_OK → result ≠ PMEMKV_STATUS_NOT_FOUND →
      pmemkv_NI_Remove db key (fun _ _ => result)
        = .exc (dispatchedExc result) pmemkv_errormsgStr) := by
  refine ⟨rfl, rfl, fun h1 h2 => ?_, rfl, rfl, fun h1 h2 => ?_⟩ <;>
    simp [pmemkv_NI_Exists, pmemkv_NI_Remove, h1, h2]

/-- C7 witness, at the UNKNOWN_ERROR status. -/
theorem c7_exists_remove_booleans_witness :
    pmemkv_NI_Exists none [] (fun _ _ => PMEMKV_STATUS_UNKNOWN_ERROR)
      = .exc (dispatchedExc PMEMKV_STATUS_UNKNOWN_ERROR) pmemkv_errormsgStr :=
  (c7_exists_remove_booleans none [] PMEMKV_STATUS_UNKNOWN_ERROR).2.2.1
    (by decide) (by decide)

/-- C8: the close operation is idempotent.  Stopping an open handle closes
exactly that handle and leaves the stored handle NULL; stopping with a NULL
handle calls pmemkv_close on nothing; the stored handle is NULL after every
stop; a second stop from the resulting state is a no-op that closes nothing;
and no stop ever raises an error. -/
theorem c8_stop_idempotent (db : Db) (h : Nat) :
    pmemkv_NI_Stop (some h) = ⟨none, some h, false⟩
  ∧ pmemkv_NI_Stop none = ⟨none, none, false⟩
  ∧ (pmemkv_NI_Stop db).db = none
  ∧ pmemkv_NI_Stop (pmemkv_NI_Stop db).db = ⟨none, none, false⟩
  ∧ (pmemkv_NI_Stop db).raised = false := by
  refine ⟨rfl, rfl, ?_, ?_, ?_⟩ <;> cases db <;> rfl

/-- C9 counterexample: with the native status OK and a native count of
2^31, count_all returns the value -2147483648 — negative and unequal to the
native count — because the size_t count is read back through a C int
conversion (Py_BuildValue format "i"). -/
theorem c9_large_count_negative :
    pmemkv_NI_CountAll (some 1) (fun _ => (2147483648, PMEMKV_STATUS_OK))
      = .ok (-2147483648)
  ∧ (-2147483648 : Int) < 0 := by
  refine ⟨?_, by decide⟩
  decide

/-- C9 amended: when the native status is OK, each count operation returns
the native count truncated to a signed 32-bit C int — equal to the native
count, and non-negative, whenever the count is below 2^31; any status other
than OK raises the dispatched exception. -/
theorem c9_count_dispatch (db : Db) (key1 key2 : List Nat) (cnt : Nat)
    (result : Int) :
    pmemkv_NI_CountAll db (fun _ => (cnt, PMEMKV_STATUS_OK)) = .ok (toCInt cnt)
  ∧ pmemkv_NI_CountAbove db key1 (fun _ _ => (cnt, PMEMKV_STATUS_OK))
      = .ok (toCInt cnt)
  ∧ pmemkv_NI_CountBelow db key1 (fun _ _ => (cnt, PMEMKV_STATUS_OK))
      = .ok (toCInt cnt)
  ∧ pmemkv_NI_CountBetween db key1 key2 (fun _ _ _ => (cnt, PMEMKV_STATUS_OK))
      = .ok (toCInt cnt)
  ∧ (cnt < 2147483648 → toCInt cnt = (cnt : Int) ∧ 0 ≤ toCInt cnt)
  ∧ (result ≠ PMEMKV_STATUS_OK →
        pmemkv_NI_CountAll db (fun _ => (cnt, result))
          = .exc (dispatchedExc result) pmemkv_errormsgStr
      ∧ pmemkv_NI_CountBetween db key1 key2 (fun _ _ _ => (cnt, result))
          = .exc (dispatchedExc result) pmemkv_errormsgStr) := by
  refine ⟨rfl, rfl, rfl, rfl, fun hlt => ?_, fun h => ?_⟩
  · have hmod : cnt % 4294967296 = cnt := Nat.mod_eq_of_lt (by omega)
    constructor
    · simp [toCInt, hmod, hlt]
    · simp [toCInt, hmod, hlt]
  · constructor <;>
      simp [pmemkv_NI_CountAll, pmemkv_NI_CountBetween, h]

/-- C9 witness for the amended theorem, at count 1 and then at the
UNKNOWN_ERROR status. -/
theorem c9_count_dispatch_witness :
    (toCInt 1 = (1 : Int) ∧ 0 ≤ toCInt 1)
  ∧ pmemkv_NI_CountAll none (fun _ => (1, PMEMKV_STATUS_UNKNOWN_ERROR))
      = .exc (dispatchedExc PMEMKV_STATUS_UNKNOWN_ERROR) pmemkv_errormsgStr :=
  ⟨(c9_count_dispatch none [] [] 1 PMEMKV_STATUS_UNKNOWN_ERROR).2.2.2.2.1
      (by decide),
   ((c9_count_dispatch none [] [] 1 PMEMKV_STATUS_UNKNOWN_ERROR).2.2.2.2.2
      (by decide)).1⟩

/-- C10: invoked with a NULL stored handle, the data-operation wrappers make
no state check of their own: each forwards the NULL handle directly to its
native engine function (the native function parameter is applied to none),
and the outcome is exactly the status dispatch of that native call — the
result type offers no binding-level closed-engine error and none is
produced. -/
theorem c10_null_handle_forwarded (key value : List Nat)
    (fput : Db → List Nat → List Nat → Int)
    (fcnt : Db → Nat × Int)
    (fex : Db → List Nat → Int)
    (frem : Db → List Nat → Int) :
    pmemkv_NI_Put none key value fput
      = (if fput none key value ≠ PMEMKV_STATUS_OK then
           .exc (dispatchedExc (fput none key value)) pmemkv_errormsgStr
         else .ok ())
  ∧ pmemkv_NI_CountAll none fcnt
      = (if (fcnt none).2 ≠ PMEMKV_STATUS_OK then
           .exc (dispatchedExc (fcnt none).2) pmemkv_errormsgStr
         else .ok (toCInt (fcnt none).1))
  ∧ pmemkv_NI_Exists none key fex
      = (if fex none key ≠ PMEMKV_STATUS_OK
            ∧ fex none key ≠ PMEMKV_STATUS_NOT_FOUND then
           .exc (dispatchedExc (fex none key)) pmemkv_errormsgStr
         else .ok (decide (fex none key = PMEMKV_STATUS_OK)))
  ∧ pmemkv_NI_Remove none key frem
      = (if frem none key ≠ PMEMKV_STATUS_OK
            ∧ frem none key ≠ PMEMKV_STATUS_NOT_FOUND then
           .exc (dispatchedExc (frem none key)) pmemkv_errormsgStr
         else .ok (decide (frem none key = PMEMKV_STATUS_OK))) := by
  exact ⟨rfl, rfl, rfl, rfl⟩

end PmemkvNI
